import Mathlib

/-!
# Verification of the xiaozhi-esp32-server ASR provider layer

Shallow embedding, in Lean 4, of the transcription-backend providers of
`main/xiaozhi-server/core/providers/asr/` (whisperx.py, whisper.py,
aliyun.py, shepra_streaming.py, shepra_streaming_online.py,
sherpa_onnx_local.py), together with theorems settling the behavioural
claims about them.

Conventions:
* bytes are `Nat` values `< 256`; byte strings are `List Nat`;
* Python `struct.pack` / `int.to_bytes` little-endian fields are embedded
  by explicit `% 256` decompositions;
* wall-clock and duration arithmetic uses `ℚ`/`ℤ` (the float values the
  code manipulates are far from any representability boundary at every
  input a theorem touches);
* fallible steps (network, disk, decode) are passed in as explicit
  `Except`/`Option`-valued arguments, so a provider function becomes a
  pure function of its inputs and of the outcome of each effectful step.
-/

/-- Little-endian 16-bit encoding, the two bytes of `struct.pack "<H"`.
`struct.pack` range-checks its argument; for `n < 2^16` this is exact. -/
def le16 (n : Nat) : List Nat := [n % 256, n / 256 % 256]

/-- Little-endian 32-bit encoding, the four bytes of `struct.pack "<I"`
(also of `int.to_bytes(4, "little", signed=True)` for `0 ≤ n < 2^31`). -/
def le32 (n : Nat) : List Nat :=
  [n % 256, n / 256 % 256, n / 65536 % 256, n / 16777216 % 256]

/-- ASCII bytes of a literal string (the `b"RIFF"`-style constants). -/
def asciiOf (s : String) : List Nat := s.toList.map Char.toNat

/-- Embedding of `ASRProvider._pcm16_to_wav` (whisperx.py lines 169-191):
wraps raw PCM bytes into a WAV container.  `sampleRate`, `channels`,
`bitsPerSample` are the provider attributes (fixed at 16000/1/16 in
`__init__`); `byte_rate`, `block_align`, `data_size`, `riff_size` are
computed exactly as in the source. -/
def pcm16_to_wav (sampleRate channels bitsPerSample : Nat) (pcmBytes : List Nat) :
    List Nat :=
  let byteRate := sampleRate * channels * (bitsPerSample / 8)
  let blockAlign := channels * (bitsPerSample / 8)
  let dataSize := pcmBytes.length
  let riffSize := 36 + dataSize
  asciiOf "RIFF" ++ le32 riffSize ++ asciiOf "WAVE"
    ++ asciiOf "fmt " ++ le32 16 ++ le16 1 ++ le16 channels ++ le32 sampleRate
    ++ le32 byteRate ++ le16 blockAlign ++ le16 bitsPerSample
    ++ asciiOf "data" ++ le32 dataSize ++ pcmBytes

theorem le32_length (n : Nat) : (le32 n).length = 4 := rfl

theorem le16_length (n : Nat) : (le16 n).length = 2 := rfl

/-- Claim C1: the WAV container produced by `_pcm16_to_wav` for the fixed
mono 16-bit 16 kHz case is byte-exact per the fixed layout: `RIFF` magic,
LE-32 total size `36 + len(pcm)`, `WAVE` magic, the 24-byte `fmt ` chunk
(size 16, format 1, 1 channel, rate 16000, byte rate 32000 =
16000*1*16/8, block align 2 = 1*16/8, 16 bits), the `data` header with
LE-32 payload length, then the raw PCM; and the total output length is
`44 + len(pcm)`.  Determinism is immediate: the output is this explicit
function of the input bytes alone. -/
theorem C1_wav_layout (pcm : List Nat) :
    pcm16_to_wav 16000 1 16 pcm =
      [82, 73, 70, 70] ++ le32 (36 + pcm.length) ++ [87, 65, 86, 69]
        ++ ([102, 109, 116, 32] ++ le32 16 ++ le16 1 ++ le16 1 ++ le32 16000
            ++ le32 (16000 * 1 * 16 / 8) ++ le16 (1 * 16 / 8) ++ le16 16)
        ++ ([100, 97, 116, 97] ++ le32 pcm.length) ++ pcm
      ∧ (pcm16_to_wav 16000 1 16 pcm).length = 44 + pcm.length := by
  constructor
  · rfl
  · simp [pcm16_to_wav, asciiOf, le32, le16]
    omega

/-! String helpers: Python `str.strip()` / `str.lower()` / `in`

`pyStrip` embeds `str.strip()` over the whitespace characters the inputs
of this development contain (ASCII whitespace, via `Char.isWhitespace`);
`pyLower` embeds `str.lower()` (ASCII case folding via `Char.toLower`;
every non-ASCII character any theorem below touches is already
lowercase, where Python's and this folding agree). -/

/-- Left-then-right strip of a list by a predicate, the list-level content
of `str.strip()`. -/
def stripList (p : α → Bool) (l : List α) : List α :=
  (l.dropWhile p).rdropWhile p

/-- Embedding of `str.strip()`. -/
def pyStrip (s : String) : String := ⟨stripList Char.isWhitespace s.data⟩

/-- Embedding of `str.lower()`. -/
def pyLower (s : String) : String := ⟨s.data.map Char.toLower⟩

theorem stripList_idem (p : α → Bool) (l : List α) :
    stripList p (stripList p l) = stripList p l := by
  unfold stripList
  have h1 : ((l.dropWhile p).rdropWhile p).dropWhile p
      = (l.dropWhile p).rdropWhile p := by
    rcases List.rdropWhile_prefix p (l.dropWhile p) with ⟨t, ht⟩
    cases hc : (l.dropWhile p).rdropWhile p with
    | nil => simp
    | cons a s =>
      have hm : l.dropWhile p = a :: (s ++ t) := by
        rw [← ht, hc]; simp
      have hself : (l.dropWhile p).dropWhile p = l.dropWhile p :=
        List.dropWhile_idempotent p l
      rw [hm] at hself
      have hpa : ¬ p a = true := by
        have h2 := (List.dropWhile_eq_self_iff).1 hself (by simp)
        simpa using h2
      simp [List.dropWhile_cons, hpa]
  rw [h1, List.rdropWhile_idempotent]

theorem pyStrip_idem (s : String) : pyStrip (pyStrip s) = pyStrip s := by
  unfold pyStrip
  exact congrArg String.mk (stripList_idem _ s.data)

theorem pyLower_length (s : String) : (pyLower s).length = s.length := by
  unfold pyLower
  exact List.length_map s.data Char.toLower

/-! whisperx.py: utterance gate and remote pipeline -/

/-- Embedding of `ASRProvider._pcm_duration_sec` (whisperx.py lines
242-245): duration in seconds of PCM16 mono bytes, `len / (sample_rate * 2)`.
Exact rational arithmetic; at every length a theorem below uses, the
float computation of the source and this rational value lie strictly on
the same side of the gate threshold. -/
def pcm_duration_sec (sampleRate pcmLen : Nat) : ℚ :=
  (pcmLen : ℚ) / (sampleRate * 2)

/-- The fixed filler set of `ASRProvider._is_trivial_text` (whisperx.py
line 255). -/
def fillers : List String :=
  ["ờ", "ừ", "ừm", "uh", "um", "hả", "hở", "à", "ạ", "vâng"]

/-- Embedding of `ASRProvider._is_trivial_text` (whisperx.py lines
247-256): empty text is trivial; otherwise strip+lower, length `< 2` is
trivial, and membership in the filler set is trivial. -/
def is_trivial_text (text : String) : Bool :=
  if text = "" then true
  else
    let t := pyLower (pyStrip text)
    if t.length < 2 then true
    else fillers.contains t

/-- The JSON payload shape `{"text": ..., "language": ..., "num_segments": ...}`
produced by `_post_wav_with_fallback`. -/
structure WXPayload where
  text : String
  language : Option String
  numSegments : Option Int
  deriving Repr, DecidableEq

/-- Embedding of the gate structure of `ASRProvider.speech_to_text`
(whisperx.py lines 64-157) after Opus decoding: `pcm` are the decoded
PCM16 bytes, `remote` the outcome of the remote POST (`Except.error`
when `_post_wav_with_fallback` raises, in which case the code
substitutes the empty payload).  Returns the final text together with a
flag recording whether the remote call was reached (`false` means the
utterance was rejected by the duration gate before any network call). -/
def speech_to_text_whisperx (pcm : List Nat) (remote : Except String WXPayload) :
    String × Bool :=
  if pcm_duration_sec 16000 pcm.length < 35 / 100 then ("", false)
  else
    let payload := match remote with
      | Except.ok p => p
      | Except.error _ => ⟨"", none, none⟩
    let text := pyStrip payload.text
    if text = "" || is_trivial_text text || payload.numSegments == some 0 then
      ("", true)
    else (text, true)

theorem is_trivial_text_of_filler (s : String)
    (h : pyLower (pyStrip s) ∈ fillers) : is_trivial_text s = true := by
  unfold is_trivial_text
  by_cases hs : s = ""
  · simp [hs]
  · rw [if_neg hs]
    by_cases hl : (pyLower (pyStrip s)).length < 2
    · simp [hl]
    · simp only [if_neg hl]
      exact List.elem_eq_true_of_mem h

theorem is_trivial_text_of_len1 (s : String)
    (h : (pyLower (pyStrip s)).length = 1) : is_trivial_text s = true := by
  unfold is_trivial_text
  by_cases hs : s = ""
  · simp [hs]
  · simp [hs, h]

theorem is_trivial_text_false_of (s : String) (h1 : pyStrip s = s)
    (h3 : s.length = 3) (hc : fillers.contains (pyLower s) = false) :
    is_trivial_text s = false := by
  unfold is_trivial_text
  have hs : ¬ s = "" := by
    intro he
    rw [he] at h3
    simp [String.length] at h3
  rw [if_neg hs]
  dsimp only
  rw [h1]
  have hl : ¬ (pyLower s).length < 2 := by
    rw [pyLower_length, h3]
    omega
  rw [if_neg hl]
  exact hc

/-- Claim C3: the utterance gate of the whisperx backend: a 0.34 s
utterance (10880 PCM bytes) is rejected before the remote call with
empty text; a 0.36 s utterance (11520 bytes) passes the duration gate
(the remote call is reached); a transcription result equal, after
trimming and case folding, to a filler word yields empty text; a
1-character (after trim/fold) non-filler result yields empty text; a
3-character stripped result outside the filler set passes through
unchanged. -/
theorem C3_utterance_gate :
    (∀ remote, speech_to_text_whisperx (List.replicate 10880 0) remote = ("", false))
    ∧ (∀ remote, (speech_to_text_whisperx (List.replicate 11520 0) remote).2 = true)
    ∧ (∀ t, pyLower (pyStrip t) ∈ fillers →
        (speech_to_text_whisperx (List.replicate 11520 0)
          (Except.ok ⟨t, none, some 1⟩)).1 = "")
    ∧ (∀ t, (pyLower (pyStrip t)).length = 1 →
        (speech_to_text_whisperx (List.replicate 11520 0)
          (Except.ok ⟨t, none, some 1⟩)).1 = "")
    ∧ (∀ t, pyStrip t = t → t.length = 3 → fillers.contains (pyLower t) = false →
        speech_to_text_whisperx (List.replicate 11520 0)
          (Except.ok ⟨t, none, some 1⟩) = (t, true)) := by
  have hgate34 : pcm_duration_sec 16000 (List.replicate 10880 (0 : Nat)).length
      < 35 / 100 := by
    rw [List.length_replicate]
    unfold pcm_duration_sec
    norm_num
  have hgate36 : ¬ (pcm_duration_sec 16000 (List.replicate 11520 (0 : Nat)).length
      < 35 / 100) := by
    rw [List.length_replicate]
    unfold pcm_duration_sec
    norm_num
  refine ⟨?_, ?_, ?_, ?_, ?_⟩
  · intro remote
    unfold speech_to_text_whisperx
    rw [if_pos hgate34]
  · intro remote
    unfold speech_to_text_whisperx
    rw [if_neg hgate36]
    dsimp only
    split <;> rfl
  · intro t h
    have htriv : is_trivial_text (pyStrip t) = true :=
      is_trivial_text_of_filler (pyStrip t) (by rw [pyStrip_idem]; exact h)
    unfold speech_to_text_whisperx
    rw [if_neg hgate36]
    simp [htriv]
  · intro t h
    have htriv : is_trivial_text (pyStrip t) = true :=
      is_trivial_text_of_len1 (pyStrip t) (by rw [pyStrip_idem]; exact h)
    unfold speech_to_text_whisperx
    rw [if_neg hgate36]
    simp [htriv]
  · intro t h1 h3 hc
    have hne : ¬ t = "" := by
      intro he
      rw [he] at h3
      simp [String.length] at h3
    have htriv : is_trivial_text t = false := is_trivial_text_false_of t h1 h3 hc
    unfold speech_to_text_whisperx
    rw [if_neg hgate36]
    simp [h1, htriv, hne]

/-- Witness for C3: the gate theorem instantiated at concrete inputs
(filler " Um", one-character "x", three-character "abc"). -/
theorem C3_utterance_gate_witness :
    (pyLower (pyStrip " Um") ∈ fillers
      ∧ (speech_to_text_whisperx (List.replicate 11520 0)
          (Except.ok ⟨" Um", none, some 1⟩)).1 = "")
    ∧ ((pyLower (pyStrip "x")).length = 1
      ∧ (speech_to_text_whisperx (List.replicate 11520 0)
          (Except.ok ⟨"x", none, some 1⟩)).1 = "")
    ∧ (pyStrip "abc" = "abc" ∧ "abc".length = 3
      ∧ fillers.contains (pyLower "abc") = false
      ∧ speech_to_text_whisperx (List.replicate 11520 0)
          (Except.ok ⟨"abc", none, some 1⟩) = ("abc", true)) :=
  ⟨⟨by decide, C3_utterance_gate.2.2.1 " Um" (by decide)⟩,
   ⟨by decide, C3_utterance_gate.2.2.2.1 "x" (by decide)⟩,
   by decide, by decide, by decide,
   C3_utterance_gate.2.2.2.2 "abc" (by decide) (by decide) (by decide)⟩

/-! whisperx.py: `_post_wav_with_fallback` field-name fallback -/

/-- Python substring test `pat in hay` on character lists. -/
def containsCharSub (pat : List Char) : List Char → Bool
  | [] => pat.isEmpty
  | c :: rest => pat.isPrefixOf (c :: rest) || containsCharSub pat rest

/-- Python `pat in hay` on strings. -/
def pyIn (pat hay : String) : Bool := containsCharSub pat.data hay.data

/-- Outcome of one `post(field_name)` call inside
`_post_wav_with_fallback`: HTTP 200 with the parsed payload, or a
non-200 status with the response body. -/
inductive PostReply where
  | ok (payload : WXPayload)
  | err (status : Nat) (body : String)
  deriving Repr, DecidableEq

/-- Embedding of `ASRProvider._post_wav_with_fallback` (whisperx.py
lines 193-240).  `post` gives the outcome of posting under a given
multipart field name.  Returns the list of field names actually posted,
in order, together with either the parsed payload or the message of the
`RuntimeError` the source raises. -/
def post_wav_with_fallback (post : String → PostReply) :
    List String × Except String WXPayload :=
  match post "file" with
  | PostReply.ok p => (["file"], Except.ok p)
  | PostReply.err status body =>
    if status = 422
        ∧ (pyIn "file" (pyLower body) = true ∨ pyIn "field required" (pyLower body) = true) then
      match post "audio" with
      | PostReply.ok p => (["file", "audio"], Except.ok p)
      | PostReply.err s2 b2 =>
        (["file", "audio"], Except.error ("HTTP " ++ toString s2 ++ ": " ++ b2))
    else (["file"], Except.error ("HTTP " ++ toString status ++ ": " ++ body))

/-- Claim C5: when the first POST under field name `file` returns HTTP
422 with a body mentioning the required field, exactly one retry is made
under the alternate field name `audio`; if that second attempt also
fails (422 or any non-200) the call raises; a first response with any
other non-200 status raises without retrying the alternate field; a 200
first response needs no retry. -/
theorem C5_field_fallback (post : String → PostReply) :
    (∀ p, post "file" = PostReply.ok p →
        post_wav_with_fallback post = (["file"], Except.ok p))
    ∧ (∀ body, post "file" = PostReply.err 422 body →
        (pyIn "file" (pyLower body) = true ∨ pyIn "field required" (pyLower body) = true) →
        (post_wav_with_fallback post).1 = ["file", "audio"]
        ∧ (∀ p2, post "audio" = PostReply.ok p2 →
            (post_wav_with_fallback post).2 = Except.ok p2)
        ∧ (∀ s2 b2, post "audio" = PostReply.err s2 b2 →
            ∃ e, (post_wav_with_fallback post).2 = Except.error e))
    ∧ (∀ status body, post "file" = PostReply.err status body →
        ¬ (status = 422
            ∧ (pyIn "file" (pyLower body) = true ∨ pyIn "field required" (pyLower body) = true)) →
        post_wav_with_fallback post
          = (["file"], Except.error ("HTTP " ++ toString status ++ ": " ++ body))) := by
  refine ⟨?_, ?_, ?_⟩
  · intro p hp
    unfold post_wav_with_fallback
    rw [hp]
  · intro body hb hmention
    have hcond : (422 = 422
        ∧ (pyIn "file" (pyLower body) = true ∨ pyIn "field required" (pyLower body) = true)) :=
      ⟨rfl, hmention⟩
    refine ⟨?_, ?_, ?_⟩
    · unfold post_wav_with_fallback
      rw [hb]
      dsimp only
      rw [if_pos hcond]
      cases post "audio" <;> rfl
    · intro p2 hp2
      unfold post_wav_with_fallback
      rw [hb]
      dsimp only
      rw [if_pos hcond, hp2]
    · intro s2 b2 hp2
      unfold post_wav_with_fallback
      rw [hb]
      dsimp only
      rw [if_pos hcond, hp2]
      exact ⟨_, rfl⟩
  · intro status body hb hneg
    unfold post_wav_with_fallback
    rw [hb]
    dsimp only
    rw [if_neg hneg]

/-- Witness for C5: concrete backends exercising the fallback retry, the
second-failure hard error, and the no-retry path for a non-422 status. -/
theorem C5_field_fallback_witness :
    ((fun f => if f = "file" then PostReply.err 422 "field required"
        else PostReply.err 500 "boom") "file" = PostReply.err 422 "field required"
      ∧ (pyIn "file" (pyLower "field required") = true
          ∨ pyIn "field required" (pyLower "field required") = true)
      ∧ (post_wav_with_fallback (fun f => if f = "file" then PostReply.err 422 "field required"
          else PostReply.err 500 "boom")).1 = ["file", "audio"]
      ∧ (∃ e, (post_wav_with_fallback (fun f => if f = "file" then PostReply.err 422 "field required"
          else PostReply.err 500 "boom")).2 = Except.error e))
    ∧ ((post_wav_with_fallback (fun f => if f = "file" then PostReply.err 422 "Field required: file"
          else PostReply.ok ⟨"hi", none, some 1⟩)).2 = Except.ok ⟨"hi", none, some 1⟩)
    ∧ (post_wav_with_fallback (fun _ => PostReply.err 500 "oops")
        = (["file"], Except.error ("HTTP " ++ toString 500 ++ ": " ++ "oops"))) := by
  refine ⟨⟨rfl, ?_, ?_, ?_⟩, ?_, ?_⟩
  · exact Or.inr (by decide)
  · exact ((C5_field_fallback _).2.1 "field required" rfl (Or.inr (by decide))).1
  · exact ((C5_field_fallback _).2.1 "field required" rfl (Or.inr (by decide))).2.2 500 "boom" rfl
  · exact ((C5_field_fallback _).2.1 "Field required: file" rfl (Or.inl (by decide))).2.1
      ⟨"hi", none, some 1⟩ rfl
  · exact (C5_field_fallback _).2.2 500 "oops" rfl (by decide)

/-! aliyun.py: credential lifecycle (`_refresh_token`, `_is_token_expired`)

Python `datetime` semantics are embedded with the environment's fixed
UTC offset `tz` (in seconds) as an explicit parameter:
`datetime.fromtimestamp(n)` yields the naive local clock reading
`n + tz`; `.timestamp()` of a naive datetime interprets its clock
reading as local time, giving `clock - tz`; `datetime.strptime` of a
`YYYY-MM-DDTHH:MM:SSZ` string yields a naive datetime whose clock
reading equals the UTC epoch value the string denotes. -/

/-- Numeric value of an ASCII digit. -/
def digitVal (c : Char) : Nat := c.toNat - 48

/-- Embedding of Python `str.isdigit()` for the ASCII inputs in scope. -/
def pyIsDigit (s : String) : Bool := !s.data.isEmpty && s.data.all Char.isDigit

/-- Embedding of Python `int(s)` on a digit string. -/
def parseNatDigits (s : String) : Nat :=
  s.data.foldl (fun a c => 10 * a + digitVal c) 0

/-- Days from 1970-01-01 to the given Gregorian civil date (the standard
`days_from_civil` computation; valid for the post-1970 dates in scope,
where all quotients are nonnegative). -/
def daysFromCivil (y m d : Nat) : Int :=
  let yAdj : Int := if m ≤ 2 then (y : Int) - 1 else (y : Int)
  let era : Int := yAdj / 400
  let yoe : Int := yAdj - era * 400
  let mp : Int := ((m : Int) + 9) % 12
  let doy : Int := (153 * mp + 2) / 5 + (d : Int) - 1
  let doe : Int := yoe * 365 + yoe / 4 - yoe / 100 + doy
  era * 146097 + doe - 719468

/-- UTC epoch seconds denoted by a civil UTC date-time. -/
def epochOfUTC (y m d h mi sec : Nat) : Int :=
  86400 * daysFromCivil y m d + 3600 * (h : Int) + 60 * (mi : Int) + (sec : Int)

/-- Parse of `datetime.strptime(s, "%Y-%m-%dT%H:%M:%SZ")` for four-digit
years: `none` means `strptime` raises `ValueError`. -/
def parseISO (s : String) : Option (Nat × Nat × Nat × Nat × Nat × Nat) :=
  match s.data with
  | [y1, y2, y3, y4, c1, m1, m2, c2, d1, d2, c3, h1, h2, c4, n1, n2, c5, s1, s2, c6] =>
    if c1 = '-' ∧ c2 = '-' ∧ c3 = 'T' ∧ c4 = ':' ∧ c5 = ':' ∧ c6 = 'Z'
        ∧ [y1, y2, y3, y4, m1, m2, d1, d2, h1, h2, n1, n2, s1, s2].all Char.isDigit then
      some (1000 * digitVal y1 + 100 * digitVal y2 + 10 * digitVal y3 + digitVal y4,
            10 * digitVal m1 + digitVal m2,
            10 * digitVal d1 + digitVal d2,
            10 * digitVal h1 + digitVal h2,
            10 * digitVal n1 + digitVal n2,
            10 * digitVal s1 + digitVal s2)
    else none
  | _ => none

/-- Naive local datetime produced by `datetime.fromtimestamp(n)`. -/
def pyFromTimestamp (tz n : Int) : Int := n + tz

/-- `.timestamp()` of a naive datetime (local-time interpretation). -/
def pyTimestamp (tz clock : Int) : Int := clock - tz

/-- Embedding of the expiry normalization inside `_refresh_token`
(aliyun.py lines 127-137): strip the raw field; a digit string goes
through `datetime.fromtimestamp(int(s)).timestamp()`, anything else
through `datetime.strptime(s, "%Y-%m-%dT%H:%M:%SZ").timestamp()`; both
then subtract the 60-second safety margin; a parse failure raises
`ValueError`. -/
def refresh_normalize (tz : Int) (expireTimeStr : String) : Except String Int :=
  let expireStr := pyStrip expireTimeStr
  if pyIsDigit expireStr then
    Except.ok (pyTimestamp tz (pyFromTimestamp tz (parseNatDigits expireStr)) - 60)
  else
    match parseISO expireStr with
    | some (y, m, d, h, mi, sec) =>
      Except.ok (pyTimestamp tz (epochOfUTC y m d h mi sec) - 60)
    | none => Except.error ("Invalid expiration time format: " ++ expireStr)

/-- Embedding of `_is_token_expired` (aliyun.py lines 145-155):
`expire_time` is `None` for a static long-term token; Python's
`if not self.expire_time` also treats the float `0.0` as "no expiry";
otherwise the check is `time.time() > expire_time`. -/
def is_token_expired (expireTime : Option ℚ) (now : ℚ) : Bool :=
  match expireTime with
  | none => false
  | some e => if e = 0 then false else decide (now > e)

/-- Counterexample to C2 as stated: with the environment at UTC offset
+08:00 (the cn-shanghai deployment the code targets), the ISO expiry
string denoting UTC epoch `T = 86400` is normalized to `T - 28800 - 60`,
not to `T - 60`: `strptime` yields a naive datetime and `.timestamp()`
interprets it as local time. -/
theorem C2_counterexample :
    refresh_normalize 28800 "1970-01-02T00:00:00Z" = Except.ok (86400 - 28800 - 60)
    ∧ refresh_normalize 28800 "1970-01-02T00:00:00Z" ≠ Except.ok (86400 - 60) := by
  have h : refresh_normalize 28800 "1970-01-02T00:00:00Z" = Except.ok 57540 := by rfl
  constructor
  · rw [h]
    norm_num
  · rw [h]
    intro hc
    injection hc with hv
    omega

/-- Claim C2 (amended): a digit expiry field is normalized to exactly
`T - 60` (the timezone cancels in the `fromtimestamp`/`timestamp`
round-trip); an ISO-8601 UTC expiry field is normalized to
`T - tz - 60` where `tz` is the environment's UTC offset — equal to
`T - 60` only in a UTC environment; afterwards, with the stored
expire time `e` nonzero, `_is_token_expired` is false at every
wall-clock read strictly before `e` and true strictly after; in static
mode (`expire_time` unset) it is always false. -/
theorem C2_token_expiry (tz : Int) (s : String) (now e : ℚ) :
    (pyIsDigit (pyStrip s) = true →
      refresh_normalize tz s = Except.ok ((parseNatDigits (pyStrip s) : Int) - 60))
    ∧ (∀ y m d h mi sec, pyIsDigit (pyStrip s) = false →
        parseISO (pyStrip s) = some (y, m, d, h, mi, sec) →
        refresh_normalize tz s = Except.ok (epochOfUTC y m d h mi sec - tz - 60))
    ∧ (e ≠ 0 → now < e → is_token_expired (some e) now = false)
    ∧ (e ≠ 0 → e < now → is_token_expired (some e) now = true)
    ∧ is_token_expired none now = false := by
  refine ⟨?_, ?_, ?_, ?_, rfl⟩
  · intro hd
    unfold refresh_normalize
    rw [if_pos hd]
    unfold pyTimestamp pyFromTimestamp
    congr 1
    omega
  · intro y m d h mi sec hd hp
    unfold refresh_normalize
    rw [if_neg (by simp [hd]), hp]
    rfl
  · intro he hlt
    unfold is_token_expired
    dsimp only
    rw [if_neg he]
    simpa using le_of_lt hlt
  · intro he hlt
    unfold is_token_expired
    dsimp only
    rw [if_neg he]
    simpa using hlt

/-- Witness for C2: concrete digit and ISO expiry fields, and concrete
clock reads on both sides of a stored expiry. -/
theorem C2_token_expiry_witness :
    (pyIsDigit (pyStrip "86460") = true
      ∧ refresh_normalize 28800 "86460" = Except.ok ((parseNatDigits (pyStrip "86460") : Int) - 60))
    ∧ (pyIsDigit (pyStrip "1970-01-02T00:00:00Z") = false
      ∧ parseISO (pyStrip "1970-01-02T00:00:00Z") = some (1970, 1, 2, 0, 0, 0)
      ∧ refresh_normalize 28800 "1970-01-02T00:00:00Z"
          = Except.ok (epochOfUTC 1970 1 2 0 0 0 - 28800 - 60))
    ∧ ((940 : ℚ) ≠ 0 ∧ (900 : ℚ) < 940 ∧ is_token_expired (some 940) 900 = false)
    ∧ ((940 : ℚ) < 1000 ∧ is_token_expired (some 940) 1000 = true) := by
  refine ⟨⟨by decide, (C2_token_expiry 28800 "86460" 0 0).1 (by decide)⟩,
    ⟨by decide, by decide,
      (C2_token_expiry 28800 "1970-01-02T00:00:00Z" 0 0).2.1 1970 1 2 0 0 0
        (by decide) (by decide)⟩,
    ⟨by norm_num, by norm_num,
      (C2_token_expiry 0 "" 900 940).2.2.1 (by norm_num) (by norm_num)⟩,
    ⟨by norm_num,
      (C2_token_expiry 0 "" 1000 940).2.2.2.1 (by norm_num) (by norm_num)⟩⟩

/-! aliyun.py: `speech_to_text` exception paths -/

/-- The effectful-step outcomes of one `speech_to_text` call on the
aliyun provider: `expired` is the `_is_token_expired()` reading,
`refresh` the outcome of `_refresh_token` (its `ValueError`s as
`Except.error`), `decodeRes` the outcome of `decode_opus`, `saveRes`
the outcome of `save_audio_to_file`, and `sendRes` the value returned
by `_send_request` — which catches all its own exceptions and returns
`None` on request failure, non-success status, or a non-JSON body. -/
structure AliyunEnv where
  expired : Bool
  refresh : Except String Unit
  audioFormat : String
  decodeRes : Except String (List (List Nat))
  saveRes : Except String String
  deleteAudioFile : Bool
  sendRes : Option String

/-- Embedding of the `try` block of aliyun `speech_to_text` (aliyun.py
lines 223-248): every exception raised inside it is caught by the
`except Exception` handler and mapped to `("", file_path)`, where
`file_path` is still `None` unless `save_audio_to_file` completed. -/
def aliyun_try_block (env : AliyunEnv) (opusData : List (List Nat)) :
    String × Option String :=
  match (if env.audioFormat = "pcm" then Except.ok opusData else env.decodeRes) with
  | Except.error _ => ("", none)
  | Except.ok _ =>
    match (if env.deleteAudioFile then Except.ok none else env.saveRes.map some) with
    | Except.error _ => ("", none)
    | Except.ok filePath =>
      match env.sendRes with
      | some t => if t ≠ "" then (t, filePath) else ("", filePath)
      | none => ("", filePath)

/-- Embedding of aliyun `speech_to_text` (aliyun.py lines 215-248): the
expired-token refresh runs before the `try` block, so a `ValueError`
from `_refresh_token` propagates to the caller; everything afterwards
is inside the `try`. -/
def speech_to_text_aliyun (env : AliyunEnv) (opusData : List (List Nat)) :
    Except String (String × Option String) :=
  if env.expired then
    match env.refresh with
    | Except.error e => Except.error e
    | Except.ok _ => Except.ok (aliyun_try_block env opusData)
  else Except.ok (aliyun_try_block env opusData)

/-- Claim C9: the only path by which aliyun `speech_to_text` raises is
the pre-`try` expired-token refresh — it raises exactly when the token
is expired and `_refresh_token` fails; every failure after that point
(decode, save, request, response parsing) is caught and yields empty
text with the file path accumulated so far. -/
theorem C9_aliyun_raise_paths (env : AliyunEnv) (opusData : List (List Nat)) :
    ((∃ e, speech_to_text_aliyun env opusData = Except.error e)
      ↔ (env.expired = true ∧ ∃ e, env.refresh = Except.error e))
    ∧ (env.sendRes = none →
        ∃ fp, aliyun_try_block env opusData = ("", fp))
    ∧ (env.audioFormat ≠ "pcm" → (∃ e, env.decodeRes = Except.error e) →
        aliyun_try_block env opusData = ("", none))
    ∧ (∀ r, speech_to_text_aliyun env opusData = Except.ok r →
        r = aliyun_try_block env opusData) := by
  refine ⟨⟨?_, ?_⟩, ?_, ?_, ?_⟩
  · rintro ⟨e, he⟩
    unfold speech_to_text_aliyun at he
    by_cases hexp : env.expired
    · rw [if_pos hexp] at he
      cases hr : env.refresh with
      | error e2 =>
        exact ⟨hexp, e2, rfl⟩
      | ok u =>
        rw [hr] at he
        exact absurd he (by simp)
    · rw [if_neg hexp] at he
      exact absurd he (by simp)
  · rintro ⟨hexp, e, her⟩
    refine ⟨e, ?_⟩
    unfold speech_to_text_aliyun
    rw [if_pos (by rw [hexp]), her]
  · intro hsend
    unfold aliyun_try_block
    cases (if env.audioFormat = "pcm" then Except.ok opusData else env.decodeRes) with
    | error e => exact ⟨none, rfl⟩
    | ok pcm =>
      cases (if env.deleteAudioFile then Except.ok none else env.saveRes.map some) with
      | error e => exact ⟨none, rfl⟩
      | ok fp =>
        rw [hsend]
        exact ⟨fp, rfl⟩
  · rintro hfmt ⟨e, hdec⟩
    unfold aliyun_try_block
    rw [if_neg hfmt, hdec]
  · intro r hr
    unfold speech_to_text_aliyun at hr
    by_cases hexp : env.expired
    · rw [if_pos hexp] at hr
      cases hre : env.refresh with
      | error e2 =>
        rw [hre] at hr
        exact absurd hr (by simp)
      | ok u =>
        rw [hre] at hr
        exact (Except.ok.inj hr).symm
    · rw [if_neg hexp] at hr
      exact (Except.ok.inj hr).symm

/-- Witness for C9: a concrete environment in which the token is
expired and the refresh fails (the call raises), and one in which the
request fails (the call returns empty text with the saved path). -/
theorem C9_aliyun_raise_paths_witness :
    (AliyunEnv.mk true (Except.error "no token") "opus" (Except.ok [[1]])
        (Except.ok "p") false (some "hi")).expired = true
    ∧ (∃ e, (AliyunEnv.mk true (Except.error "no token") "opus" (Except.ok [[1]])
        (Except.ok "p") false (some "hi")).refresh = Except.error e)
    ∧ (∃ e, speech_to_text_aliyun
        (AliyunEnv.mk true (Except.error "no token") "opus" (Except.ok [[1]])
          (Except.ok "p") false (some "hi")) [[1]] = Except.error e)
    ∧ (∃ fp, aliyun_try_block
        (AliyunEnv.mk false (Except.ok ()) "opus" (Except.ok [[1]])
          (Except.ok "p") false none) [[1]] = ("", fp)) := by
  refine ⟨rfl, ⟨"no token", rfl⟩, ?_, ?_⟩
  · exact (C9_aliyun_raise_paths _ [[1]]).1.2 ⟨rfl, "no token", rfl⟩
  · exact (C9_aliyun_raise_paths _ [[1]]).2.1 rfl

/-! Claim C6: how backend failures reach the caller -/

theorem duration_gate_11520 :
    ¬ (pcm_duration_sec 16000 (List.replicate 11520 (0 : Nat)).length < 35 / 100) := by
  rw [List.length_replicate]
  unfold pcm_duration_sec
  norm_num

theorem aliyun_sendfail_empty (env : AliyunEnv) (opus : List (List Nat))
    (hsend : env.sendRes = none) :
    ∃ fp, aliyun_try_block env opus = ("", fp) := by
  unfold aliyun_try_block
  cases (if env.audioFormat = "pcm" then Except.ok opus else env.decodeRes) with
  | error e => exact ⟨none, rfl⟩
  | ok pcm =>
    cases (if env.deleteAudioFile then Except.ok none else env.saveRes.map some) with
    | error e => exact ⟨none, rfl⟩
    | ok fp =>
      rw [hsend]
      exact ⟨fp, rfl⟩

/-- Counterexample to C6 as stated: a failing backend does not surface a
typed error — the aliyun provider returns the pair `("", file_path)`
when `_send_request` fails (here on a 0.72 s utterance with the audio
saved to "p"), and the whisperx provider returns empty text when the
remote POST raises, so "backend failed" is returned as the same empty
string as "no speech". -/
theorem C6_counterexample :
    speech_to_text_aliyun
      (AliyunEnv.mk false (Except.ok ()) "opus" (Except.ok [[1]]) (Except.ok "p") false none)
      [[1]] = Except.ok ("", some "p")
    ∧ (speech_to_text_whisperx (List.replicate 11520 0)
        (Except.error "connection error")).1 = "" := by
  constructor
  · rfl
  · unfold speech_to_text_whisperx
    rw [if_neg duration_gate_11520]
    rfl

/-- Claim C6 (amended): a backend failure after the pre-`try` token
refresh is caught and returned to the immediate caller as empty text —
aliyun returns `("", file_path)` whenever `_send_request` fails, and
whisperx returns empty text whenever the remote POST raises — so a
valid empty-text result and a backend failure are *not* distinguishable
to the caller (only the aliyun expired-token refresh raises). -/
theorem C6_failures_as_empty (env : AliyunEnv) (opus : List (List Nat))
    (pcm : List Nat) (err : String) :
    (env.expired = false → env.sendRes = none →
      ∃ fp, speech_to_text_aliyun env opus = Except.ok ("", fp))
    ∧ (speech_to_text_whisperx pcm (Except.error err)).1 = "" := by
  constructor
  · intro hexp hsend
    obtain ⟨fp, hfp⟩ := aliyun_sendfail_empty env opus hsend
    refine ⟨fp, ?_⟩
    unfold speech_to_text_aliyun
    rw [if_neg (by simp [hexp]), hfp]
  · unfold speech_to_text_whisperx
    split
    · rfl
    · rfl

/-- Witness for C6 (amended): concrete failing-backend environments. -/
theorem C6_failures_as_empty_witness :
    (AliyunEnv.mk false (Except.ok ()) "opus" (Except.ok [[1]]) (Except.ok "p") false none).expired
        = false
    ∧ (AliyunEnv.mk false (Except.ok ()) "opus" (Except.ok [[1]]) (Except.ok "p") false none).sendRes
        = none
    ∧ (∃ fp, speech_to_text_aliyun
        (AliyunEnv.mk false (Except.ok ()) "opus" (Except.ok [[1]]) (Except.ok "p") false none)
        [[1]] = Except.ok ("", fp))
    ∧ (speech_to_text_whisperx [] (Except.error "boom")).1 = "" :=
  ⟨rfl, rfl, (C6_failures_as_empty _ [[1]] [] "boom").1 rfl rfl,
   (C6_failures_as_empty
     (AliyunEnv.mk false (Except.ok ()) "opus" (Except.ok [[1]]) (Except.ok "p") false none)
     [[1]] [] "boom").2⟩

/-! whisper.py: bounded retry loop in `speech_to_text` -/

/-- Constant `MAX_RETRIES` (whisper.py line 20). -/
def MAX_RETRIES : Nat := 2

/-- Constant `RETRY_DELAY` in seconds (whisper.py line 21). -/
def RETRY_DELAY : Nat := 1

/-- Outcome of one iteration body of the whisper `speech_to_text` loop:
a normal return `(text, file_path)` (covering transcription success,
short audio, no segments and empty text, all of which `return` a pair),
an `OSError` (disk-space check or other transient I/O failure, the only
retried class), or any other exception.  The error constructors carry
the `file_path` value at raise time. -/
inductive AttemptOutcome where
  | ok (text : String) (filePath : Option String)
  | osError (msg : String) (filePath : Option String)
  | otherError (msg : String) (filePath : Option String)
  deriving Repr, DecidableEq

/-- Observable result of a whole `speech_to_text` call on the whisper
provider: how many attempts ran, total seconds slept between attempts,
and the returned pair (`none` models Python's implicit `None` when the
`while` guard fails on entry, unreachable for `MAX_RETRIES = 2`). -/
structure WhisperRun where
  attempts : Nat
  sleptSeconds : Nat
  result : Option (String × Option String)
  deriving Repr, DecidableEq

/-- Embedding of the `while retry_count < MAX_RETRIES` loop of
`speech_to_text` (whisper.py lines 82-155), with the attempt bodies'
outcomes supplied by `outcome`: a normal return and any non-`OSError`
exception return a pair immediately; an `OSError` increments
`retry_count`, returns `("", file_path)` once `retry_count >=
MAX_RETRIES`, and otherwise sleeps `RETRY_DELAY` seconds and retries.
`fuel` bounds the recursion; `fuel = maxRetries - retry_count` never
reaches 0 while the guard holds. -/
def whisper_loop (outcome : Nat → AttemptOutcome) (maxRetries : Nat) :
    Nat → Nat → Nat → Nat → WhisperRun
  | 0, _, att, slept => ⟨att, slept, none⟩
  | fuel + 1, rc, att, slept =>
    match outcome rc with
    | AttemptOutcome.ok t fp => ⟨att + 1, slept, some (t, fp)⟩
    | AttemptOutcome.otherError _ fp => ⟨att + 1, slept, some ("", fp)⟩
    | AttemptOutcome.osError _ fp =>
      if rc + 1 ≥ maxRetries then ⟨att + 1, slept, some ("", fp)⟩
      else whisper_loop outcome maxRetries fuel (rc + 1) (att + 1) (slept + RETRY_DELAY)

/-- Embedding of `speech_to_text` (whisper.py lines 82-155) as the loop
started at `retry_count = 0`. -/
def speech_to_text_whisper (outcome : Nat → AttemptOutcome) (maxRetries : Nat) :
    WhisperRun :=
  whisper_loop outcome maxRetries maxRetries 0 0 0

/-- Counterexample to C4 as stated: with every attempt raising an
`OSError`, the call runs exactly 2 attempts with one 1-second
inter-attempt delay but then returns the pair `("", file_path)` — the
empty text, not the last error (the result type of the loop has no
error outcome at all: both `except` arms `return` pairs). -/
theorem C4_counterexample :
    speech_to_text_whisper (fun _ => AttemptOutcome.osError "disk failure" (some "p"))
        MAX_RETRIES
      = ⟨2, 1, some ("", some "p")⟩
    ∧ (speech_to_text_whisper (fun _ => AttemptOutcome.osError "disk failure" (some "p"))
        MAX_RETRIES).result.map Prod.fst = some "" := by
  constructor <;> rfl

/-- Claim C4 (amended): with `MAX_RETRIES = 2`, a body that raises a
transient `OSError` on both attempts is attempted exactly 2 times with
one fixed `RETRY_DELAY`-second inter-attempt delay, and the call then
returns empty text together with the last attempt's file path — not the
error; a non-transient (non-`OSError`) failure is not retried: it
returns empty text after a single attempt with no delay. -/
theorem C4_retry_bound (outcome : Nat → AttemptOutcome) :
    (∀ m0 m1 p0 p1, outcome 0 = AttemptOutcome.osError m0 p0 →
        outcome 1 = AttemptOutcome.osError m1 p1 →
        speech_to_text_whisper outcome MAX_RETRIES = ⟨2, RETRY_DELAY, some ("", p1)⟩)
    ∧ (∀ m p, outcome 0 = AttemptOutcome.otherError m p →
        speech_to_text_whisper outcome MAX_RETRIES = ⟨1, 0, some ("", p)⟩)
    ∧ (∀ t p, outcome 0 = AttemptOutcome.ok t p →
        speech_to_text_whisper outcome MAX_RETRIES = ⟨1, 0, some (t, p)⟩) := by
  refine ⟨?_, ?_, ?_⟩
  · intro m0 m1 p0 p1 h0 h1
    unfold speech_to_text_whisper MAX_RETRIES
    unfold whisper_loop
    rw [h0]
    dsimp only
    rw [if_neg (by omega)]
    unfold whisper_loop
    rw [h1]
    dsimp only
    rw [if_pos (by omega)]
    rfl
  · intro m p h0
    unfold speech_to_text_whisper MAX_RETRIES
    unfold whisper_loop
    rw [h0]
  · intro t p h0
    unfold speech_to_text_whisper MAX_RETRIES
    unfold whisper_loop
    rw [h0]

/-- Witness for C4 (amended): the three outcome classes at concrete
attempt functions. -/
theorem C4_retry_bound_witness :
    ((fun _ => AttemptOutcome.osError "e" (some "q")) 0
        = AttemptOutcome.osError "e" (some "q")
      ∧ speech_to_text_whisper (fun _ => AttemptOutcome.osError "e" (some "q")) MAX_RETRIES
        = ⟨2, RETRY_DELAY, some ("", some "q")⟩)
    ∧ speech_to_text_whisper (fun _ => AttemptOutcome.otherError "boom" none) MAX_RETRIES
        = ⟨1, 0, some ("", none)⟩
    ∧ speech_to_text_whisper (fun _ => AttemptOutcome.ok "xin chào" (some "f")) MAX_RETRIES
        = ⟨1, 0, some ("xin chào", some "f")⟩ :=
  ⟨⟨rfl, (C4_retry_bound _).1 "e" "e" (some "q") (some "q") rfl rfl⟩,
   (C4_retry_bound _).2.1 "boom" none rfl,
   (C4_retry_bound _).2.2 "xin chào" (some "f") rfl⟩

/-! shepra_streaming.py / shepra_streaming_online.py: socket protocol -/

/-- A websocket message: binary bytes or text. -/
inductive WSMsg where
  | bin (bytes : List Nat)
  | txt (s : String)
  deriving Repr, DecidableEq

/-- Byte stream of `numpy.float32` samples under `.tobytes()`: each
sample is carried by its 32-bit pattern, serialized little-endian. -/
def f32Bytes : List Nat → List Nat
  | [] => []
  | s :: rest => le32 s ++ f32Bytes rest

theorem f32Bytes_append (a b : List Nat) :
    f32Bytes (a ++ b) = f32Bytes a ++ f32Bytes b := by
  induction a with
  | nil => rfl
  | cons x xs ih => simp [f32Bytes, ih]

/-- Successive `data[start:end]` slices of the send loops
(`end = min(start + samples_per_message, len)`), with explicit fuel;
`fuel = l.length` suffices whenever `0 < spm`. -/
def chunksOfAux (spm : Nat) : Nat → List α → List (List α)
  | 0, _ => []
  | _, [] => []
  | fuel + 1, x :: xs => (x :: xs).take spm :: chunksOfAux spm fuel ((x :: xs).drop spm)

/-- The chunk sequence sent by the `while start < len` loops. -/
def chunksOf (spm : Nat) (l : List α) : List (List α) := chunksOfAux spm l.length l

/-- Binary payload bytes of a message sequence, in send order. -/
def binPayload : List WSMsg → List Nat
  | [] => []
  | WSMsg.bin b :: rest => b ++ binPayload rest
  | WSMsg.txt _ :: rest => binPayload rest

/-- The 8-byte header of shepra_streaming.py lines 44-47:
`sample_rate.to_bytes(4, "little", signed=True) +
total_bytes.to_bytes(4, "little", signed=True)` (exact for the
nonnegative in-range values in scope). -/
def streaming_header (sampleRate totalBytes : Nat) : List Nat :=
  le32 sampleRate ++ le32 totalBytes

/-- Embedding of the send side of `websocket_asr` in shepra_streaming.py
(lines 37-85): one message carrying the 8-byte header concatenated with
the first `samples_per_message`-sample chunk, then the remaining chunks
(each paced by the configured `seconds_per_message` delay, not modelled),
then the literal text "Done". -/
def websocket_asr_sends (spm : Nat) (samples : List Nat) : List WSMsg :=
  WSMsg.bin (streaming_header 16000 (4 * samples.length) ++ f32Bytes (samples.take spm))
    :: ((chunksOf spm (samples.drop spm)).map (fun c => WSMsg.bin (f32Bytes c))
      ++ [WSMsg.txt "Done"])

/-- Embedding of the send side of `websocket_asr` in
shepra_streaming_online.py (lines 37-65): only the paced sample chunks
(no header message), then the literal text "Done". -/
def websocket_asr_online_sends (spm : Nat) (samples : List Nat) : List WSMsg :=
  (chunksOf spm samples).map (fun c => WSMsg.bin (f32Bytes c)) ++ [WSMsg.txt "Done"]

/-- Loop of `receive_results` in shepra_streaming.py (lines 51-62):
keep updating `last_message` with every message different from "Done!"
and stop at the first "Done!".  In this variant the per-message
`json.loads` sits inside a `try`/`except` used only for logging, so the
drain itself never raises.  (The shepra_streaming_online.py drain is
different — its unguarded `json.loads` can abort it — and is embedded
separately below as `receive_results_online_go`.) -/
def receive_results_go (last : String) : List String → String
  | [] => last
  | m :: rest => if m = "Done!" then last else receive_results_go m rest

/-- Embedding of the shepra_streaming.py `receive_results` coroutine,
started with `last_message = ""`. -/
def receive_results (msgs : List String) : String := receive_results_go "" msgs

theorem binPayload_chunks (spm : Nat) (hspm : 0 < spm) :
    ∀ (fuel : Nat) (l : List Nat), l.length ≤ fuel →
      binPayload ((chunksOfAux spm fuel l).map (fun c => WSMsg.bin (f32Bytes c))
          ++ [WSMsg.txt "Done"])
        = f32Bytes l := by
  intro fuel
  induction fuel with
  | zero =>
    intro l hl
    have hl0 : l = [] := by
      cases l with
      | nil => rfl
      | cons a as => simp at hl
    subst hl0
    rfl
  | succ n ih =>
    intro l hl
    cases l with
    | nil => rfl
    | cons x xs =>
      have hdrop : ((x :: xs).drop spm).length ≤ n := by
        rw [List.length_drop]
        simp only [List.length_cons]
        simp only [List.length_cons] at hl
        omega
      calc binPayload ((chunksOfAux spm (n + 1) (x :: xs)).map
              (fun c => WSMsg.bin (f32Bytes c)) ++ [WSMsg.txt "Done"])
          = f32Bytes ((x :: xs).take spm)
              ++ binPayload (((chunksOfAux spm n ((x :: xs).drop spm)).map
                (fun c => WSMsg.bin (f32Bytes c))) ++ [WSMsg.txt "Done"]) := rfl
        _ = f32Bytes ((x :: xs).take spm) ++ f32Bytes ((x :: xs).drop spm) := by
            rw [ih _ hdrop]
        _ = f32Bytes (x :: xs) := by
            rw [← f32Bytes_append, List.take_append_drop]

theorem receive_results_go_spec (rest : List String) :
    ∀ (pre : List String) (acc : String), "Done!" ∉ pre →
      receive_results_go acc (pre ++ "Done!" :: rest) = pre.getLast?.getD acc := by
  intro pre
  induction pre with
  | nil =>
    intro acc h
    simp [receive_results_go]
  | cons m pre ih =>
    intro acc h
    have hm : ¬ m = "Done!" := by
      intro he
      exact h (he ▸ List.mem_cons_self m pre)
    rw [List.cons_append]
    unfold receive_results_go
    rw [if_neg hm, ih m (fun hx => h (List.mem_cons_of_mem _ hx))]
    cases pre with
    | nil => rfl
    | cons q qs =>
      cases hql : (q :: qs).getLast? with
      | none => simp at hql
      | some x =>
        rw [List.getLast?_cons_cons, hql]
        rfl

/-- Counterexample to C7 as stated: the shepra_streaming_online.py
variant of `websocket_asr` — one of the two functions the claim covers —
sends no 8-byte header at all: on three samples (with the default 8000
samples per message) its first message is the 12-byte sample payload,
not a header of sample rate and byte count. -/
theorem C7_counterexample :
    (websocket_asr_online_sends 8000 [1, 2, 3]).head?
      = some (WSMsg.bin (f32Bytes [1, 2, 3]))
    ∧ (f32Bytes [1, 2, 3]).length = 12
    ∧ f32Bytes [1, 2, 3] ≠ streaming_header 16000 (4 * 3) := by
  refine ⟨rfl, rfl, ?_⟩
  decide

theorem binPayload_cons_bin (b : List Nat) (rest : List WSMsg) :
    binPayload (WSMsg.bin b :: rest) = b ++ binPayload rest := rfl

/-- Minimal model of a `json.loads` result as far as the receive paths
use it: a JSON object whose entries the code reads with `.get`, or any
other successfully parsed JSON value (on which `.get` raises
`AttributeError`).  A parse oracle `String → Option PyJson` supplies
the `json.loads` outcome per message, `none` meaning `JSONDecodeError`. -/
inductive PyJson where
  | dict (entries : List (String × String))
  | other
  deriving Repr, DecidableEq

/-- Embedding of the drain loop of `receive_results` in
shepra_streaming_online.py (lines 44-52): unlike shepra_streaming.py,
its per-message `json.loads(message)` is not guarded, so a non-JSON
partial (`parse m = none`) raises `JSONDecodeError` out of the receive
task and aborts the drain. -/
def receive_results_online_go (parse : String → Option PyJson) (last : String) :
    List String → Except String String
  | [] => Except.ok last
  | m :: rest =>
    if m = "Done!" then Except.ok last
    else match parse m with
      | none => Except.error "JSONDecodeError"
      | some _ => receive_results_online_go parse m rest

/-- Final-result extraction of shepra_streaming.py `websocket_asr`
(lines 82-85): `json.loads(decoding_results).get("text",
decoding_results)` with every exception caught and mapped back to the
raw message. -/
def streaming_result_of_last (parse : String → Option PyJson) (last : String) :
    String :=
  match parse last with
  | some (PyJson.dict entries) => (entries.lookup "text").getD last
  | some PyJson.other => last
  | none => last

/-- Receive side of shepra_streaming.py `websocket_asr`: guarded drain,
then guarded text extraction from the last non-terminal message. -/
def websocket_asr_result (parse : String → Option PyJson) (replies : List String) :
    String :=
  streaming_result_of_last parse (receive_results replies)

/-- Final-result extraction of shepra_streaming_online.py
`websocket_asr` (lines 64-65): `json.loads(decoding_results)` raises on
a non-JSON last message (including the empty initial one), and
`.get("text", "")` raises on a parsed non-dict value; both are
unguarded inside `websocket_asr`. -/
def online_result_of_last (parse : String → Option PyJson) (last : String) :
    Except String String :=
  match parse last with
  | some (PyJson.dict entries) => Except.ok ((entries.lookup "text").getD "")
  | some PyJson.other => Except.error "AttributeError"
  | none => Except.error "JSONDecodeError"

/-- Receive side of shepra_streaming_online.py `websocket_asr`:
unguarded drain, then unguarded extraction; `Except.error` models an
exception propagating out of `websocket_asr`. -/
def websocket_asr_online_result (parse : String → Option PyJson)
    (replies : List String) : Except String String :=
  match receive_results_online_go parse "" replies with
  | Except.error e => Except.error e
  | Except.ok last => online_result_of_last parse last

/-- Embedding of shepra_streaming_online.py `speech_to_text` (lines
67-84) around the receive side: a raise anywhere inside
`websocket_asr` is caught by the `except` handler, which returns
`("", file_path)` with `file_path` still `None` (this variant never
assigns it); success returns `(text, wav_path)`. -/
def speech_to_text_online (parse : String → Option PyJson) (replies : List String)
    (wavPath : String) : String × Option String :=
  match websocket_asr_online_result parse replies with
  | Except.ok t => (t, some wavPath)
  | Except.error _ => ("", none)

theorem receive_results_online_go_spec (parse : String → Option PyJson)
    (rest : List String) :
    ∀ (pre : List String) (acc : String), "Done!" ∉ pre →
      (∀ m ∈ pre, (parse m).isSome = true) →
      receive_results_online_go parse acc (pre ++ "Done!" :: rest)
        = Except.ok (pre.getLast?.getD acc) := by
  intro pre
  induction pre with
  | nil =>
    intro acc h hall
    simp [receive_results_online_go]
  | cons m pre ih =>
    intro acc h hall
    have hm : ¬ m = "Done!" := fun he => h (he ▸ List.mem_cons_self m pre)
    rw [List.cons_append]
    unfold receive_results_online_go
    rw [if_neg hm]
    have hsome : (parse m).isSome = true := hall m (List.mem_cons_self m pre)
    cases hp : parse m with
    | none =>
      rw [hp] at hsome
      exact absurd hsome (by simp)
    | some j =>
      dsimp only
      rw [ih m (fun hx => h (List.mem_cons_of_mem _ hx))
        (fun x hx => hall x (List.mem_cons_of_mem _ hx))]
      cases pre with
      | nil => rfl
      | cons q qs =>
        cases hql : (q :: qs).getLast? with
        | none => simp at hql
        | some x =>
          rw [List.getLast?_cons_cons, hql]
          rfl

theorem receive_results_online_abort (parse : String → Option PyJson)
    (rest : List String) :
    ∀ (pre : List String) (acc : String), "Done!" ∉ pre →
      (∃ m, m ∈ pre ∧ parse m = none) →
      ∃ e, receive_results_online_go parse acc (pre ++ "Done!" :: rest)
        = Except.error e := by
  intro pre
  induction pre with
  | nil =>
    intro acc h hex
    rcases hex with ⟨m, hm, _⟩
    exact absurd hm (List.not_mem_nil m)
  | cons m pre ih =>
    intro acc h hex
    have hm : ¬ m = "Done!" := fun he => h (he ▸ List.mem_cons_self m pre)
    rw [List.cons_append]
    unfold receive_results_online_go
    rw [if_neg hm]
    cases hp : parse m with
    | none => exact ⟨"JSONDecodeError", rfl⟩
    | some j =>
      dsimp only
      rcases hex with ⟨w, hw, hwn⟩
      rcases List.mem_cons.1 hw with hw1 | hw2
      · rw [hw1, hp] at hwn
        exact absurd hwn (by simp)
      · exact ih m (fun hx => h (List.mem_cons_of_mem _ hx)) ⟨w, hw2, hwn⟩

/-- Claim C7 (amended): the shepra_streaming.py `websocket_asr` sends,
per utterance, a byte stream that starts with the 8-byte header (signed
LE-32 sample rate 16000, then signed LE-32 total payload byte count
`4 * len(samples)`; the header rides in the same websocket message as
the first sample chunk) followed by exactly the float32 sample bytes in
`samples_per_message`-sized chunks, with the literal text "Done" as the
last message; the shepra_streaming_online.py variant sends the same
chunked sample bytes but no header, then "Done".  Receiving:
shepra_streaming.py drains replies until the first literal "Done!"
(its per-message `json.loads` is guarded, so the drain never aborts)
and the returned transcription is a function of the last non-terminal
message alone — that message's "text" field when it parses as a JSON
dict, the raw message otherwise; shepra_streaming_online.py drains with
an unguarded `json.loads`, so it reaches the last non-terminal message
only when every earlier non-terminal reply parses as JSON — then
returning that message's "text" field with default "" — while a
non-JSON partial aborts the drain and the utterance yields
`("", None)`; pacing delays between chunks are not modelled. -/
theorem C7_socket_protocol (spm : Nat) (hspm : 0 < spm) (samples : List Nat)
    (pre rest : List String) (hpre : "Done!" ∉ pre)
    (parse : String → Option PyJson) :
    binPayload (websocket_asr_sends spm samples)
      = streaming_header 16000 (4 * samples.length) ++ f32Bytes samples
    ∧ (streaming_header 16000 (4 * samples.length)).length = 8
    ∧ (websocket_asr_sends spm samples).getLast? = some (WSMsg.txt "Done")
    ∧ binPayload (websocket_asr_online_sends spm samples) = f32Bytes samples
    ∧ (websocket_asr_online_sends spm samples).getLast? = some (WSMsg.txt "Done")
    ∧ receive_results (pre ++ "Done!" :: rest) = pre.getLast?.getD ""
    ∧ websocket_asr_result parse (pre ++ "Done!" :: rest)
        = streaming_result_of_last parse (pre.getLast?.getD "")
    ∧ ((∀ m ∈ pre, (parse m).isSome = true) →
        websocket_asr_online_result parse (pre ++ "Done!" :: rest)
          = online_result_of_last parse (pre.getLast?.getD ""))
    ∧ ((∃ m, m ∈ pre ∧ parse m = none) →
        ∀ wavPath, speech_to_text_online parse (pre ++ "Done!" :: rest) wavPath
          = ("", none)) := by
  refine ⟨?_, rfl, ?_, ?_, ?_, ?_, ?_, ?_, ?_⟩
  · unfold websocket_asr_sends
    rw [binPayload_cons_bin]
    unfold chunksOf
    rw [binPayload_chunks spm hspm _ _ (le_refl _)]
    rw [List.append_assoc, ← f32Bytes_append, List.take_append_drop]
  · unfold websocket_asr_sends
    rw [← List.cons_append]
    exact List.getLast?_concat _
  · unfold websocket_asr_online_sends chunksOf
    rw [binPayload_chunks spm hspm _ _ (le_refl _)]
  · unfold websocket_asr_online_sends
    exact List.getLast?_concat _
  · unfold receive_results
    exact receive_results_go_spec rest pre "" hpre
  · unfold websocket_asr_result receive_results
    rw [receive_results_go_spec rest pre "" hpre]
  · intro hall
    unfold websocket_asr_online_result
    rw [receive_results_online_go_spec parse rest pre "" hpre hall]
  · intro hex wavPath
    obtain ⟨e, he⟩ := receive_results_online_abort parse rest pre "" hpre hex
    unfold speech_to_text_online websocket_asr_online_result
    rw [he]

/-- A concrete reply-parse oracle for the C7 witness: "p1" and "p2"
parse as JSON dicts carrying a "text" field; anything else is not
JSON. -/
def sampleParse (s : String) : Option PyJson :=
  if s = "p1" then some (PyJson.dict [("text", "t1")])
  else if s = "p2" then some (PyJson.dict [("text", "t2")])
  else none

/-- Witness for C7: the protocol characterization at a concrete chunk
size, sample list and reply sequences — an all-JSON reply drain for the
online variant, and a non-JSON partial that aborts the online variant
into `("", None)` while the guarded shepra_streaming.py path keeps the
raw message. -/
theorem C7_socket_protocol_witness :
    ((0 : Nat) < 2 ∧ "Done!" ∉ (["p1", "p2"] : List String)
      ∧ (∀ m ∈ (["p1", "p2"] : List String), (sampleParse m).isSome = true)
      ∧ (∃ m, m ∈ (["raw"] : List String) ∧ sampleParse m = none))
    ∧ binPayload (websocket_asr_sends 2 [1, 2, 3])
        = streaming_header 16000 (4 * [1, 2, 3].length) ++ f32Bytes [1, 2, 3]
    ∧ receive_results (["p1", "p2"] ++ "Done!" :: ["late"])
        = (["p1", "p2"] : List String).getLast?.getD ""
    ∧ websocket_asr_online_result sampleParse (["p1", "p2"] ++ "Done!" :: ["late"])
        = online_result_of_last sampleParse
            ((["p1", "p2"] : List String).getLast?.getD "")
    ∧ speech_to_text_online sampleParse (["raw"] ++ "Done!" :: []) "w.wav"
        = ("", none)
    ∧ websocket_asr_result sampleParse (["raw"] ++ "Done!" :: [])
        = streaming_result_of_last sampleParse "raw" := by
  refine ⟨⟨by norm_num, by decide, by decide, ⟨"raw", by decide, by decide⟩⟩,
    ?_, ?_, ?_, ?_, ?_⟩
  · exact (C7_socket_protocol 2 (by norm_num) [1, 2, 3] ["p1", "p2"] ["late"]
      (by decide) sampleParse).1
  · exact (C7_socket_protocol 2 (by norm_num) [1, 2, 3] ["p1", "p2"] ["late"]
      (by decide) sampleParse).2.2.2.2.2.1
  · exact (C7_socket_protocol 2 (by norm_num) [1, 2, 3] ["p1", "p2"] ["late"]
      (by decide) sampleParse).2.2.2.2.2.2.2.1 (by decide)
  · exact (C7_socket_protocol 2 (by norm_num) [1, 2, 3] ["raw"] []
      (by decide) sampleParse).2.2.2.2.2.2.2.2 ⟨"raw", by decide, by decide⟩ "w.wav"
  · exact (C7_socket_protocol 2 (by norm_num) [1, 2, 3] ["raw"] []
      (by decide) sampleParse).2.2.2.2.2.2.1

/-! sherpa_onnx_local.py: language-switch trigger and model hot swap

The `model_lock` makes the decode section of `speech_to_text` and the
whole of `switch_model` mutually exclusive, so concurrent executions
are equivalent to some serialisation of those critical sections; the
trace theorems below quantify over serialised operation sequences. -/

/-- Trigger phrases selecting English (sherpa_onnx_local.py lines 19-25). -/
def en_triggers : List String :=
  ["chuyển sang tiếng anh", "có thể nói tiếng anh không", "co the noi tieng anh",
   "can you speak english", "switch to english"]

/-- Trigger phrases selecting Vietnamese (sherpa_onnx_local.py lines 26-32). -/
def vi_triggers : List String :=
  ["chuyển sang tiếng việt", "có thể nói tiếng việt không", "co the noi tieng viet",
   "can you speak vietnamese", "switch to vietnamese"]

/-- Embedding of `detect_language_switch` (sherpa_onnx_local.py lines
17-39): lower the text, return "english" on the first English trigger
contained in it, else "vietnamese" on a Vietnamese trigger, else "". -/
def detect_language_switch (text : String) : String :=
  let lower := pyLower text
  if en_triggers.any (fun phrase => pyIn phrase lower) then "english"
  else if vi_triggers.any (fun phrase => pyIn phrase lower) then "vietnamese"
  else ""

/-- Embedding of `MODEL_MAPPING` (sherpa_onnx_local.py lines 41-44). -/
def MODEL_MAPPING (lang : String) : Option String :=
  if lang = "english" then some "models/sherpa-onnx-sense-voice-zh-en-ja-ko-yue"
  else if lang = "vietnamese" then some "models/sherpa-onnx-zipformer-vi-int8-2025-04-20"
  else none

/-- An opaque loaded recognizer handle, identified by the model
directory it was fully constructed from (`_load_model` assigns
`self.model` only after the recognizer constructor returns). -/
structure ModelHandle where
  dir : String
  deriving Repr, DecidableEq

/-- Embedding of a completed `_load_model(model_dir)`. -/
def load_model (modelDir : String) : ModelHandle := ⟨modelDir⟩

/-- The mutable provider state guarded by `model_lock`: the active
handle and `current_model_dir`. -/
structure EngineState where
  model : ModelHandle
  current_model_dir : String
  deriving Repr, DecidableEq

/-- Embedding of `switch_model` (sherpa_onnx_local.py lines 139-146):
under the lock, load the new model fully, then publish handle and
directory together. -/
def switch_model (_s : EngineState) (newModelDir : String) : EngineState :=
  { model := load_model newModelDir, current_model_dir := newModelDir }

/-- Embedding of `speech_to_text` (sherpa_onnx_local.py lines 199-240):
decode the utterance against the currently active handle (inside the
lock), then run the trigger matcher on the resulting text and switch
only when the mapped directory differs from `current_model_dir`.
`decode` abstracts the recognizer stream feeding/decoding against a
given handle.  Returns the text, the post-call state, and whether
`switch_model` was invoked. -/
def speech_to_text_sherpa (decode : ModelHandle → List Nat → String)
    (s : EngineState) (audio : List Nat) : String × EngineState × Bool :=
  let text := decode s.model audio
  let langSwitch := detect_language_switch text
  if langSwitch ≠ "" then
    match MODEL_MAPPING langSwitch with
    | some newModel =>
      if newModel ≠ "" ∧ newModel ≠ s.current_model_dir then
        (text, switch_model s newModel, true)
      else (text, s, false)
    | none => (text, s, false)
  else (text, s, false)

/-- A serialised operation on one provider instance: a transcription
call, or a direct model switch. -/
inductive EngineOp where
  | transcribe (audio : List Nat)
  | switchTo (dir : String)

/-- Serialised execution of a sequence of operations (justified by
`model_lock`), collecting the texts the transcriptions return. -/
def run_engine (decode : ModelHandle → List Nat → String) :
    EngineState → List EngineOp → EngineState × List String
  | s, [] => (s, [])
  | s, EngineOp.transcribe a :: rest =>
    let step := speech_to_text_sherpa decode s a
    let res := run_engine decode step.2.1 rest
    (res.1, step.1 :: res.2)
  | s, EngineOp.switchTo d :: rest => run_engine decode (switch_model s d) rest

theorem sherpa_post_state (decode : ModelHandle → List Nat → String)
    (s : EngineState) (audio : List Nat) :
    (speech_to_text_sherpa decode s audio).2.1 = s
    ∨ ∃ nm, MODEL_MAPPING (detect_language_switch (decode s.model audio)) = some nm
        ∧ (speech_to_text_sherpa decode s audio).2.1 = switch_model s nm := by
  unfold speech_to_text_sherpa
  by_cases h1 : detect_language_switch (decode s.model audio) ≠ ""
  · rw [if_pos h1]
    cases hm : MODEL_MAPPING (detect_language_switch (decode s.model audio)) with
    | none => exact Or.inl rfl
    | some nm =>
      dsimp only
      by_cases h2 : nm ≠ "" ∧ nm ≠ s.current_model_dir
      · exact Or.inr ⟨nm, rfl, by rw [if_pos h2]⟩
      · rw [if_neg h2]
        exact Or.inl rfl
  · rw [if_neg h1]
    exact Or.inl rfl

theorem sherpa_consistent_preserved (decode : ModelHandle → List Nat → String)
    (s : EngineState) (audio : List Nat)
    (h : s.model = load_model s.current_model_dir) :
    (speech_to_text_sherpa decode s audio).2.1.model
      = load_model (speech_to_text_sherpa decode s audio).2.1.current_model_dir := by
  rcases sherpa_post_state decode s audio with hp | ⟨nm, _, hp⟩
  · rw [hp]
    exact h
  · rw [hp]
    rfl

theorem run_engine_consistent (decode : ModelHandle → List Nat → String) :
    ∀ (ops : List EngineOp) (s : EngineState),
      s.model = load_model s.current_model_dir →
      (run_engine decode s ops).1.model
        = load_model (run_engine decode s ops).1.current_model_dir := by
  intro ops
  induction ops with
  | nil =>
    intro s h
    exact h
  | cons op rest ih =>
    intro s h
    cases op with
    | transcribe a =>
      exact ih _ (sherpa_consistent_preserved decode s a h)
    | switchTo d =>
      exact ih _ rfl

/-- Claim C8: a transcription's text is produced entirely by the handle
active when the call entered its decode section (the trigger matcher
runs only after decoding); the post-call state is either exactly the
old state or exactly `switch_model` applied to the mapped directory;
`switch_model` publishes a fully loaded handle together with its
directory; and along any serialised operation sequence started from a
loaded model the single active handle always is the fully loaded model
of the published directory. -/
theorem C8_model_swap (decode : ModelHandle → List Nat → String)
    (s : EngineState) (audio : List Nat) :
    (speech_to_text_sherpa decode s audio).1 = decode s.model audio
    ∧ ((speech_to_text_sherpa decode s audio).2.1 = s
        ∨ ∃ nm, MODEL_MAPPING (detect_language_switch (decode s.model audio)) = some nm
            ∧ (speech_to_text_sherpa decode s audio).2.1 = switch_model s nm)
    ∧ (∀ d, (switch_model s d).model = load_model d
        ∧ (switch_model s d).current_model_dir = d)
    ∧ (∀ (ops : List EngineOp) (d0 : String),
        (run_engine decode ⟨load_model d0, d0⟩ ops).1.model
          = load_model (run_engine decode ⟨load_model d0, d0⟩ ops).1.current_model_dir) := by
  refine ⟨?_, sherpa_post_state decode s audio, fun d => ⟨rfl, rfl⟩,
    fun ops d0 => run_engine_consistent decode ops ⟨load_model d0, d0⟩ rfl⟩
  unfold speech_to_text_sherpa
  by_cases h1 : detect_language_switch (decode s.model audio) ≠ ""
  · rw [if_pos h1]
    cases hm : MODEL_MAPPING (detect_language_switch (decode s.model audio)) with
    | none => rfl
    | some nm =>
      dsimp only
      by_cases h2 : nm ≠ "" ∧ nm ≠ s.current_model_dir
      · rw [if_pos h2]
      · rw [if_neg h2]
  · rw [if_neg h1]

/-- Claim C10: when the transcribed text triggers a language whose
mapped model directory equals the active `current_model_dir`, the call
is a no-op on the state — `switch_model` is not invoked and both the
loaded model and `current_model_dir` are unchanged. -/
theorem C10_switch_idempotent (decode : ModelHandle → List Nat → String)
    (s : EngineState) (audio : List Nat)
    (h : MODEL_MAPPING (detect_language_switch (decode s.model audio))
      = some s.current_model_dir) :
    speech_to_text_sherpa decode s audio = (decode s.model audio, s, false) := by
  have hne : detect_language_switch (decode s.model audio) ≠ "" := by
    intro he
    rw [he] at h
    rw [show MODEL_MAPPING "" = none from rfl] at h
    exact Option.noConfusion h
  unfold speech_to_text_sherpa
  rw [if_pos hne, h]
  dsimp only
  rw [if_neg (fun hc => hc.2 rfl)]

/-- Witness for C10: a transcription that utters "switch to english"
while the English model is already active leaves the state unchanged
and does not call `switch_model`. -/
theorem C10_switch_idempotent_witness :
    MODEL_MAPPING (detect_language_switch ((fun _ _ => "switch to english")
        (EngineState.mk (load_model "models/sherpa-onnx-sense-voice-zh-en-ja-ko-yue")
          "models/sherpa-onnx-sense-voice-zh-en-ja-ko-yue").model ([] : List Nat)))
      = some "models/sherpa-onnx-sense-voice-zh-en-ja-ko-yue"
    ∧ speech_to_text_sherpa (fun _ _ => "switch to english")
        (EngineState.mk (load_model "models/sherpa-onnx-sense-voice-zh-en-ja-ko-yue")
          "models/sherpa-onnx-sense-voice-zh-en-ja-ko-yue") []
      = ("switch to english",
          EngineState.mk (load_model "models/sherpa-onnx-sense-voice-zh-en-ja-ko-yue")
            "models/sherpa-onnx-sense-voice-zh-en-ja-ko-yue", false) := by
  constructor
  · decide
  · exact C10_switch_idempotent (fun _ _ => "switch to english") _ [] (by decide)
